import Mathlib

/-!
Shallow embedding of `src/importlib_resources/abc.py` (the Traversable /
SimpleReader sketch layer) and verification of the frozen claims about it.

Conventions of the embedding:
* A binary stream is represented by the byte content it delivers when read to
  completion (`Bytes`, a list of byte values).
* Python exceptions raised by this module are values of `PyErr`; a call that
  can raise is a Lean function into `Except PyErr _`.
* Python attribute lookup is modelled explicitly: an access to an attribute
  that the receiving object does not have is `.error (.attributeError _)`,
  exactly as CPython raises `AttributeError`.
* `from ._compat import ABC, FileNotFoundError` refers to a module that is not
  part of this source tree; per the specification the abstract base classes
  are used "purely as structural contracts (duck-typed, no shared state)", so
  the embedding treats the classes structurally and does not model
  abstract-method instantiation checks, and `FileNotFoundError` is the
  `PyErr.fileNotFound` constructor.
* `io.TextIOWrapper(*args, **kwargs)` is external library code; its
  construction is modelled as an opaque wrapper value recording exactly the
  arguments it was constructed from (which is all the claims need: whether the
  provider's binary stream was wired into the wrapper is visible from those
  arguments).
-/

namespace ImportlibResources

/-- Byte content of a binary stream, read to completion. -/
abbrev Bytes := List Nat

/-- The Python exceptions that the code under `src/importlib_resources/abc.py`
can raise (directly or through attribute lookup). -/
inductive PyErr where
  /-- Embeds `FileNotFoundError(msg)` (imported from `_compat`). -/
  | fileNotFound (msg : String)
  /-- Embeds `IsADirectoryError()` raised by `ResourceContainer.open` (abc.py:210). -/
  | isADirectory
  /-- Embeds `StopIteration` raised by `next()` on an exhausted generator
  (`ResourceContainer.joinpath`, abc.py:213). -/
  | stopIteration
  /-- Embeds `AttributeError` from looking up a missing attribute. -/
  | attributeError (attr : String)
  deriving DecidableEq, Repr

/-- A `SimpleReader` provider (abc.py:123-152): a package identity, immediate
child providers, immediate resource names, and a binary opener.  The opener is
an arbitrary function because concrete providers are external collaborators. -/
inductive SimpleReader : Type where
  | mk (package : String) (child_readers : List SimpleReader)
      (resources : List String) (open_binary : String → Except PyErr Bytes)

/-- Embeds `SimpleReader.package` (abstract property, abc.py:126-130). -/
def SimpleReader.package : SimpleReader → String
  | .mk p _ _ _ => p

/-- Embeds `SimpleReader.child_readers()` (abc.py:132-137). -/
def SimpleReader.child_readers : SimpleReader → List SimpleReader
  | .mk _ c _ _ => c

/-- Embeds `SimpleReader.resources()` (abc.py:139-143). -/
def SimpleReader.resources : SimpleReader → List String
  | .mk _ _ r _ => r

/-- Embeds `SimpleReader.open_binary(resource)` (abc.py:145-148). -/
def SimpleReader.open_binary : SimpleReader → String → Except PyErr Bytes
  | .mk _ _ _ o => o

/-- Embeds `SimpleReader.name` (abc.py:150-152): `self.package.split('.')[-1]`.
`String.splitOn` never returns the empty list, matching Python `str.split`
with a separator, so `getLastD` is exactly the `[-1]` index. -/
def SimpleReader.name (r : SimpleReader) : String :=
  (r.package.splitOn ".").getLastD ""

/-- A Python value that a caller may pass through `open(mode, *args, **kwargs)`
to the text-wrapper construction: a binary stream object, a string (e.g. an
encoding), or `None`. -/
inductive PyVal where
  | stream (content : Bytes)
  | str (s : String)
  | none
  deriving DecidableEq, Repr

/-- A stream object as returned by `open`-like operations of this module:
either a raw binary stream delivering `content`, or an `io.TextIOWrapper`
recording exactly the positional and keyword arguments it was constructed
from (abc.py:187 constructs it as `io.TextIOWrapper(*args, **kwargs)`). -/
inductive Stream where
  | binary (content : Bytes)
  | textIOWrapper (args : List PyVal) (kwargs : List (String × PyVal))
  deriving DecidableEq, Repr

/-- The duck-typed object stored in `ResourceHandle.reader`.  The module
itself constructs handles only as `ResourceHandle(self, name)` from
`ResourceContainer.iterdir` (abc.py:203), where `self` is the
`ResourceContainer`; but the constructor (abc.py:174-176) accepts any object,
in particular an actual `SimpleReader`. -/
inductive ReaderObj where
  /-- an object implementing the `SimpleReader` contract -/
  | simple (r : SimpleReader)
  /-- a `ResourceContainer` wrapping `r` (its only instance attribute is
  `reader`, set at abc.py:193) -/
  | container (r : SimpleReader)

/-- Attribute lookup `obj.open_binary` followed by the call, on the
duck-typed reader object of a `ResourceHandle` (abc.py:185).  A
`ResourceContainer` defines no `open_binary` (neither does `Traversable`), so
the lookup raises `AttributeError`. -/
def ReaderObj.open_binary : ReaderObj → String → Except PyErr Bytes
  | .simple r, n => r.open_binary n
  | .container _, _ => .error (.attributeError "open_binary")

/-- The `Traversable` nodes this module can build: `ResourceHandle`
(abc.py:173-188) and `ResourceContainer` (abc.py:191-216). -/
inductive Node where
  | handle (reader : ReaderObj) (name : String)
  | container (reader : SimpleReader)

/-- Embeds `ResourceHandle.is_file` (abc.py:178-179) / `ResourceContainer.is_file`
(abc.py:198-199). -/
def Node.is_file : Node → Bool
  | .handle _ _ => true
  | .container _ => false

/-- Embeds `ResourceHandle.is_dir` (abc.py:181-182) / `ResourceContainer.is_dir`
(abc.py:195-196). -/
def Node.is_dir : Node → Bool
  | .handle _ _ => false
  | .container _ => true

/-- Attribute lookup `node.name`.  A `ResourceHandle` sets `self.name` in its
constructor (abc.py:176); a `ResourceContainer` sets only `self.reader`
(abc.py:193) and neither it nor `Traversable` defines `name`, so the lookup
raises `AttributeError`. -/
def Node.getName : Node → Except PyErr String
  | .handle _ n => .ok n
  | .container _ => .error (.attributeError "name")

/-- Attribute lookup `node.isfile` (called by `TraversableResources.is_resource`,
abc.py:167).  Both node classes define `is_file`, not `isfile`, so the lookup
raises `AttributeError` on either kind of node. -/
def Node.isfileAttr : Node → Except PyErr Bool
  | _ => .error (.attributeError "isfile")

/-- Embeds `ResourceHandle.open(mode='r', *args, **kwargs)` (abc.py:184-188):

    stream = self.reader.open_binary(self.name)
    if 'b' not in mode:
        stream = io.TextIOWrapper(*args, **kwargs)
    return stream

Line 185 always runs first, so an error from the reader lookup or the binary
open propagates in every mode.  The test on line 186 is character containment
(`'b' not in mode`), and the text branch constructs the wrapper from the
caller's arguments only — the binary `stream` is not passed to it. -/
def ResourceHandle.open (reader : ReaderObj) (name : String) (mode : String)
    (args : List PyVal) (kwargs : List (String × PyVal)) : Except PyErr Stream :=
  match ReaderObj.open_binary reader name with
  | .error e => .error e
  | .ok content =>
      if mode.data.contains 'b' then .ok (.binary content)
      else .ok (.textIOWrapper args kwargs)

/-- Attribute lookup `self.resources` inside `ResourceContainer.iterdir`
(abc.py:204).  The receiver is the `ResourceContainer` instance, whose only
instance attribute is `reader` (abc.py:193); neither `ResourceContainer` nor
`Traversable` defines `resources`, so CPython raises
`AttributeError('resources')`.  (The generator expression's outermost
iterable is evaluated eagerly when `iterdir` runs.) -/
def ResourceContainer.resourcesAttr (_reader : SimpleReader) :
    Except PyErr (List String) :=
  .error (.attributeError "resources")

/-- Attribute lookup `self.child_readers` inside `ResourceContainer.iterdir`
(abc.py:206): same situation as `resourcesAttr` — the container has no such
attribute. -/
def ResourceContainer.childReadersAttr (_reader : SimpleReader) :
    Except PyErr (List SimpleReader) :=
  .error (.attributeError "child_readers")

/-- Embeds `ResourceContainer.iterdir` (abc.py:201-207):

    files = (ResourceHandle(self, name) for name in self.resources)
    dirs = map(ResourceContainer, self.child_readers())
    return itertools.chain(files, dirs)

Modelled as the fully forced sequence: first a `ResourceHandle(self, name)`
per name (its `reader` is the container itself), then a `ResourceContainer`
per child reader.  Both attribute lookups go through the `Attr` functions
above, so the call raises `AttributeError('resources')` before yielding
anything. -/
def ResourceContainer.iterdir (reader : SimpleReader) : Except PyErr (List Node) := do
  let names ← ResourceContainer.resourcesAttr reader
  let children ← ResourceContainer.childReadersAttr reader
  return names.map (fun n => Node.handle (.container reader) n)
      ++ children.map Node.container

/-- The scan inside `ResourceContainer.joinpath` (abc.py:213-216):
`next(t for t in items if t.name == name)` over an already produced item
list.  Each element's `name` attribute is looked up (which raises on
`ResourceContainer` elements), and exhausting the generator makes `next`
raise `StopIteration`. -/
def nextMatching (name : String) : List Node → Except PyErr Node
  | [] => .error .stopIteration
  | t :: ts => do
      let n ← t.getName
      if n = name then return t else nextMatching name ts

/-- Embeds `ResourceContainer.joinpath(name)` (abc.py:212-216): the linear scan of
`self.iterdir()` for the first element whose `name` equals the argument. -/
def ResourceContainer.joinpath (reader : SimpleReader) (name : String) :
    Except PyErr Node := do
  let items ← ResourceContainer.iterdir reader
  nextMatching name items

/-- Embeds `ResourceContainer.open(*args, **kwargs)` (abc.py:209-210): raises
`IsADirectoryError()` unconditionally, whatever the arguments. -/
def ResourceContainer.open (_reader : SimpleReader) (_args : List PyVal)
    (_kwargs : List (String × PyVal)) : Except PyErr Stream :=
  .error .isADirectory

/-- Embeds `open(mode, *args, **kwargs)` dispatched on a node produced by this
module: `ResourceHandle.open` on a file handle, `ResourceContainer.open` on a
container (which ignores its arguments). -/
def Node.openWith (node : Node) (mode : String) (args : List PyVal)
    (kwargs : List (String × PyVal)) : Except PyErr Stream :=
  match node with
  | .handle r n => ResourceHandle.open r n mode args kwargs
  | .container r => ResourceContainer.open r (.str mode :: args) kwargs

/-- Embeds `TraversableReader.files()` (abc.py:219-221) returns
`ResourceContainer(self)`; the container is represented by the reader it
wraps. -/
def TraversableReader.files (reader : SimpleReader) : Node :=
  .container reader

/-- Embeds `TraversableResources.open_resource(resource)` (abc.py:160-161) as
instantiated by `TraversableReader`:
`self.files().joinpath(resource).open('rb')`. -/
def TraversableReader.open_resource (reader : SimpleReader) (resource : String) :
    Except PyErr Stream := do
  let node ← ResourceContainer.joinpath reader resource
  node.openWith "rb" [] []

/-- Embeds `TraversableResources.resource_path(resource)` (abc.py:163-164): always
raises `FileNotFoundError(resource)`. -/
def TraversableReader.resource_path (_reader : SimpleReader) (resource : String) :
    Except PyErr String :=
  .error (.fileNotFound resource)

/-- Embeds `TraversableResources.is_resource(path)` (abc.py:166-167) as instantiated
by `TraversableReader`: `self.files().joinpath(path).isfile()`. -/
def TraversableReader.is_resource (reader : SimpleReader) (path : String) :
    Except PyErr Bool := do
  let node ← ResourceContainer.joinpath reader path
  node.isfileAttr

/-- Embeds `TraversableResources.contents()` (abc.py:169-170) as instantiated by
`TraversableReader`: `(item.name for item in self.files().iterdir())`,
consumed to completion (`iterdir` is evaluated when the generator expression
is created, each `item.name` as the generator is advanced). -/
def TraversableReader.contents (reader : SimpleReader) :
    Except PyErr (List String) := do
  let items ← ResourceContainer.iterdir reader
  items.mapM Node.getName

/-- The observable shape of a node: its `name` attribute (or the error that
lookup raises), and its `is_dir` / `is_file` answers. -/
def Node.shape (n : Node) : Except PyErr String × Bool × Bool :=
  (n.getName, n.is_dir, n.is_file)

/-! ### Concrete example providers used to evaluate the code -/

/-- Example provider: package `pkg`, one resource `a.txt` with content
`b"hi"`, no children. -/
def pkgP : SimpleReader :=
  .mk "pkg" [] ["a.txt"]
    (fun n => if n = "a.txt" then .ok [104, 105] else .error (.fileNotFound n))

/-- Same shape as `pkgP` but the resource has different content `b"HI"`. -/
def pkgQ : SimpleReader :=
  .mk "pkg" [] ["a.txt"]
    (fun n => if n = "a.txt" then .ok [72, 73] else .error (.fileNotFound n))

/-- A child provider: package `pkg.sub`, empty. -/
def subP : SimpleReader :=
  .mk "pkg.sub" [] [] (fun n => .error (.fileNotFound n))

/-- Example provider with both a resource and a child sub-package. -/
def treeP : SimpleReader :=
  .mk "pkg" [subP] ["a.txt"]
    (fun n => if n = "a.txt" then .ok [104, 105] else .error (.fileNotFound n))

/-- Embeds `pkgP` with a different package identity but identical `resources`,
`child_readers` and `open_binary` responses. -/
def pkgP2 : SimpleReader :=
  .mk "other.pkg" [] ["a.txt"]
    (fun n => if n = "a.txt" then .ok [104, 105] else .error (.fileNotFound n))

/-! ### Claims -/

/-- Claim C1, evaluation of the code at a failing input.  The claim says that
for a name `n` in `P.resources()`, `ResourceContainer(P).joinpath(n)` is a
file node whose `open("rb")` content equals `P.open_binary(n)`.  On the
provider `pkgP` (resource `a.txt` with content `b"hi"`), `joinpath` instead
raises `AttributeError('resources')`, because `iterdir` reads
`self.resources` on the container, whose only attribute is `reader`; and even
a `ResourceHandle` built the way `iterdir` builds them (reader = the
container, abc.py:203) has an `open("rb")` that raises
`AttributeError('open_binary')`, since `ResourceContainer` has no
`open_binary` method. -/
theorem C1_joinpath_open_rb_fails :
    ResourceContainer.joinpath pkgP "a.txt"
        = .error (.attributeError "resources")
      ∧ ResourceHandle.open (.container pkgP) "a.txt" "rb" [] []
        = .error (.attributeError "open_binary") :=
  ⟨rfl, rfl⟩

/-- Claim C2, evaluation of the code at a failing input.  The claim says that
opening a file node in text mode returns a text-decoding wrapper constructed
around the binary stream obtained from `provider.open_binary(name)`.  In the
code (abc.py:187) the wrapper is `io.TextIOWrapper(*args, **kwargs)` — the
binary stream is not passed to it.  Witnessed here by two providers whose
`a.txt` contents differ (`b"hi"` vs `b"HI"`) yet whose text-mode `open`
results are the identical wrapper carrying no stream at all. -/
theorem C2_text_wrapper_ignores_stream :
    ResourceHandle.open (.simple pkgP) "a.txt" "r" [] []
        = .ok (.textIOWrapper [] [])
      ∧ ResourceHandle.open (.simple pkgQ) "a.txt" "r" [] []
        = .ok (.textIOWrapper [] []) :=
  ⟨rfl, rfl⟩

/-- Claim C3, evaluation of the code at a failing input.  The claim says that
`joinpath` on a name absent from both resources and child names fails with the
NotFound condition and not some other exception kind.  On `pkgP`,
`joinpath("missing")` actually raises `AttributeError('resources')` (the
`iterdir` attribute slip); and the `next(...)`-based scan of abc.py:213-216,
run on the item list `iterdir` was meant to produce, ends in `StopIteration`,
not a not-found error, when no item matches. -/
theorem C3_absent_name_wrong_error :
    ResourceContainer.joinpath pkgP "missing"
        = .error (.attributeError "resources")
      ∧ nextMatching "missing" [Node.handle (.container pkgP) "a.txt"]
        = .error .stopIteration :=
  ⟨rfl, rfl⟩

/-- Claim C4, evaluation of the code at a failing input.  The claim says that
the bridged `is_resource(path)` returns true iff the path names a file under
the root.  On `pkgP` with its own resource name `a.txt`, `is_resource`
instead raises `AttributeError('resources')` (through `joinpath`/`iterdir`);
and independently, the method calls `.isfile()` (abc.py:167) though both node
classes define only `is_file`, so even a successfully joined node would raise
`AttributeError('isfile')`. -/
theorem C4_is_resource_raises :
    TraversableReader.is_resource pkgP "a.txt"
        = .error (.attributeError "resources")
      ∧ Node.isfileAttr (Node.handle (.simple pkgP) "a.txt")
        = .error (.attributeError "isfile") :=
  ⟨rfl, rfl⟩

/-- Claim C5, evaluation of the code at a failing input.  The claim says that
`iterdir()` yields one file node per resource name followed by one directory
node per child reader.  On `treeP` (one resource `a.txt`, one child `pkg.sub`)
the call yields nothing: it raises `AttributeError('resources')`, because
abc.py:204 reads `self.resources` (and abc.py:206 would call
`self.child_readers()`) on the `ResourceContainer`, whose only attribute is
`reader`. -/
theorem C5_iterdir_raises :
    ResourceContainer.iterdir treeP = .error (.attributeError "resources") :=
  rfl

/-- Claim C6 (confirmed): `ResourceContainer.open` (abc.py:209-210) raises
`IsADirectoryError()` unconditionally — for every wrapped provider (including
an empty one) and every argument combination. -/
theorem C6_container_open_isadirectory (reader : SimpleReader)
    (args : List PyVal) (kwargs : List (String × PyVal)) :
    ResourceContainer.open reader args kwargs = .error .isADirectory :=
  rfl

/-- Claim C7, evaluation of the code at a failing input.  The claim says that
the bridged `contents()` returns exactly the derived names of one `iterdir()`
pass over `files()`.  On `treeP` it returns no names: the `iterdir` call
inside the generator expression (abc.py:170) raises
`AttributeError('resources')`; and independently, a directory item produced
by the intended `iterdir` has no `name` attribute (`ResourceContainer` never
sets one), so `item.name` would raise `AttributeError('name')` when the
generator reached it. -/
theorem C7_contents_raises :
    TraversableReader.contents treeP = .error (.attributeError "resources")
      ∧ Node.getName (Node.container subP) = .error (.attributeError "name") :=
  ⟨rfl, rfl⟩

/-- Claim C8, evaluation of the code at a failing input.  The claim says that
two consecutive `iterdir()` calls on the same `ResourceContainer(P)` yield two
sequences with identical (name, is_dir) pairs.  In the code no call to
`iterdir` yields a sequence at all: for every provider it raises
`AttributeError('resources')` (abc.py:204), so in particular both of two
consecutive calls do. -/
theorem C8_iterdir_never_yields (reader : SimpleReader) :
    ResourceContainer.iterdir reader = .error (.attributeError "resources") :=
  rfl

/-- Claim C9 (confirmed): the branch selection in `ResourceHandle.open`
(abc.py:186) is the character-containment test `'b' not in mode`, not
equality with `"rb"`.  For every reader object, name, argument list and mode:
if `'b'` occurs anywhere in `mode`, the result is exactly the reader's
`open_binary` stream with no text wrapping; if `'b'` does not occur (any such
mode, e.g. `"w"`), the text-wrapping branch is taken, producing the wrapper
built from the caller's arguments (after the binary open has run). -/
theorem C9_mode_branch (reader : ReaderObj) (name mode : String)
    (args : List PyVal) (kwargs : List (String × PyVal)) :
    ('b' ∈ mode.data →
        ResourceHandle.open reader name mode args kwargs
          = (ReaderObj.open_binary reader name).map Stream.binary)
      ∧ ('b' ∉ mode.data →
        ResourceHandle.open reader name mode args kwargs
          = (ReaderObj.open_binary reader name).map
              (fun _ => Stream.textIOWrapper args kwargs)) := by
  constructor <;> intro h <;> unfold ResourceHandle.open <;>
    cases ReaderObj.open_binary reader name <;>
      simp [h, Except.map]

/-- Witness for C9: at mode `"br"` (which contains `'b'` but is not `"rb"`)
the raw binary stream of `pkgP`'s `a.txt` comes back unwrapped, and at mode
`"w"` the text-wrapping branch is taken. -/
theorem C9_mode_branch_witness :
    ResourceHandle.open (.simple pkgP) "a.txt" "br" [] []
        = .ok (.binary [104, 105])
      ∧ ResourceHandle.open (.simple pkgP) "a.txt" "w" [] []
        = .ok (.textIOWrapper [] []) := by
  refine ⟨((C9_mode_branch (.simple pkgP) "a.txt" "br" [] []).1 (by decide)).trans
      rfl,
    ((C9_mode_branch (.simple pkgP) "a.txt" "w" [] []).2 (by decide)).trans
      rfl⟩

/-- Claim C10 (confirmed): every operation of the layer is deterministic in
the provider's responses.  If two providers return identical `resources()`,
`child_readers()` and `open_binary()` results (their `package` identities may
differ, showing no dependence on any other input), then `iterdir`, `joinpath`
(compared by the observable shape of the resulting nodes), file-node `open`,
`contents`, `open_resource`, `is_resource` and directory `open` all return
identical observable results. -/
theorem C10_deterministic (r₁ r₂ : SimpleReader)
    (_hres : r₁.resources = r₂.resources)
    (_hch : r₁.child_readers = r₂.child_readers)
    (hob : ∀ n, r₁.open_binary n = r₂.open_binary n) :
    ((ResourceContainer.iterdir r₁).map (List.map Node.shape)
        = (ResourceContainer.iterdir r₂).map (List.map Node.shape))
      ∧ (∀ name, (ResourceContainer.joinpath r₁ name).map Node.shape
          = (ResourceContainer.joinpath r₂ name).map Node.shape)
      ∧ (∀ name mode args kwargs,
          ResourceHandle.open (.simple r₁) name mode args kwargs
            = ResourceHandle.open (.simple r₂) name mode args kwargs)
      ∧ (TraversableReader.contents r₁ = TraversableReader.contents r₂)
      ∧ (∀ resource, TraversableReader.open_resource r₁ resource
          = TraversableReader.open_resource r₂ resource)
      ∧ (∀ path, TraversableReader.is_resource r₁ path
          = TraversableReader.is_resource r₂ path)
      ∧ (∀ args kwargs, ResourceContainer.open r₁ args kwargs
          = ResourceContainer.open r₂ args kwargs) := by
  refine ⟨rfl, fun _ => rfl, ?_, rfl, fun _ => rfl, fun _ => rfl, fun _ _ => rfl⟩
  intro name mode args kwargs
  unfold ResourceHandle.open
  simp only [ReaderObj.open_binary, hob name]

/-- Witness for C10: `pkgP` (package `pkg`) and `pkgP2` (package `other.pkg`)
give identical provider responses, and the bridged `contents` and file-node
binary `open` observably agree. -/
theorem C10_deterministic_witness :
    TraversableReader.contents pkgP = TraversableReader.contents pkgP2
      ∧ ResourceHandle.open (.simple pkgP) "a.txt" "rb" [] []
        = ResourceHandle.open (.simple pkgP2) "a.txt" "rb" [] [] := by
  have h := C10_deterministic pkgP pkgP2 rfl rfl (fun _ => rfl)
  exact ⟨h.2.2.2.1, h.2.2.1 "a.txt" "rb" [] []⟩

end ImportlibResources
